import Mathlib

/-!
Verification of the booking lifecycle core of the emprius-app-backend
repository. The API handlers of the bookings endpoints are embedded from
the Go source (HandleAcceptPetition, HandleDenyPetition, HandleCancelRequest,
HandleReturnBooking, HandleGetBooking, HandleRateBooking). The persistence
layer of bookings (db.BookingService: Get, Create, UpdateStatus and the
conflict detector) is not part of the sources at hand, so those operations
are modelled from the specification, as noted on each definition.
Machine integers of the source (Unix seconds as int64, user and booking
identifiers) are modelled as Int and Nat; none of the verified properties
depends on overflow behaviour.
-/

namespace Emprius

/-- The booking status enumeration of the db package: PENDING, ACCEPTED,
REJECTED, CANCELLED and RETURNED. -/
inductive BookingStatus where
  | pending
  | accepted
  | rejected
  | cancelled
  | returned
deriving DecidableEq, Repr

/-- The db.Booking record: identifier, tool reference, requester
(FromUserID), owner (ToUserID), date range as Unix instants, metadata,
status and timestamps. -/
structure Booking where
  id : Nat
  toolId : String
  fromUserId : Nat
  toUserId : Nat
  startDate : Int
  endDate : Int
  contact : String
  comments : String
  bookingStatus : BookingStatus
  createdAt : Int
  updatedAt : Int
deriving DecidableEq, Repr

/-- A user record, reduced to the fields the booking handlers read: the
database identifier and the email under which handlers look the user up. -/
structure User where
  id : Nat
  email : String
deriving DecidableEq, Repr

/-- The db.CreateBookingRequest record passed to BookingService.Create. -/
structure CreateBookingRequest where
  toolId : String
  startDate : Int
  endDate : Int
  contact : String
  comments : String
deriving DecidableEq, Repr

/-- The body of a POST bookings rates request (RateRequest): a rating and a
booking identifier. The identifier is kept as the result of the ObjectID
parse, none meaning a malformed identifier. -/
structure RateRequest where
  rating : Int
  bookingId : Option Nat
deriving DecidableEq, Repr

/-- The error values the embedded handlers return, one constructor per
distinct error value of the api package. -/
inductive ApiError where
  | unauthorized
  | userNotFound
  | invalidRequestBodyData
  | internalServerError
  | bookingNotFound
  | toolNotFound
  | bookingDatesConflict
  | onlyOwnerCanAccept
  | canOnlyAcceptPending
  | onlyOwnerCanDeny
  | canOnlyDenyPending
  | onlyRequesterCanCancel
  | canOnlyCancelPending
  | onlyOwnerCanReturn
  | userNotInvolved
  | invalidRating
deriving DecidableEq, Repr

/-- The bookings collection, in insertion order. -/
abbrev Store := List Booking

/-- UserService.GetUserByEmail: the user whose email matches, none when the
lookup fails. -/
def getUserByEmail (users : List User) (email : String) : Option User :=
  users.find? (fun u => u.email == email)

/-- Modelled from the spec: BookingService.Get (spec 4.3, the single-record
lookup of the persistence interface, FindByID) is not among the sources at
hand; it returns the stored reservation with the given identifier or a
not-found signal. -/
def bookingGet : Store → Nat → Option Booking
  | [], _ => none
  | b :: rest, id => if b.id = id then some b else bookingGet rest id

/-- Whether a single stored reservation blocks the candidate range: same
tool, status Accepted, and half-open overlap. -/
def isBlocking (b : Booking) (toolId : String) (candidateStart candidateEnd : Int) : Bool :=
  decide (b.toolId = toolId) && decide (b.bookingStatus = BookingStatus.accepted) &&
    decide (b.startDate < candidateEnd) && decide (b.endDate > candidateStart)

/-- Modelled from the spec: the Conflict Detector (spec 4.1) lives in the
bookings persistence code, which is not among the sources at hand. Per the
spec, it fetches all reservations of the tool whose status is Accepted and
reports a conflict when existing.start is before candidateEnd and
existing.end is after candidateStart. -/
def hasConflict (store : Store) (toolId : String) (candidateStart candidateEnd : Int) : Bool :=
  store.any (fun b => isBlocking b toolId candidateStart candidateEnd)

/-- The reservation record bookingCreate persists on its success path:
fields are taken from the request and the two parties, the status is
Pending, and both timestamps are set to now. -/
def freshBooking (req : CreateBookingRequest) (fromUser toUser : Nat)
    (now : Int) (newId : Nat) : Booking :=
  { id := newId, toolId := req.toolId, fromUserId := fromUser, toUserId := toUser,
    startDate := req.startDate, endDate := req.endDate,
    contact := req.contact, comments := req.comments,
    bookingStatus := BookingStatus.pending, createdAt := now, updatedAt := now }

/-- Modelled from the spec: BookingService.Create (spec 4.2) is not among
the sources at hand. It runs the Conflict Detector against the tool and the
requested range; on conflict it fails with the dates-conflict error,
otherwise it persists a new reservation with status Pending, created and
updated timestamps set to now, and returns it. -/
def bookingCreate (store : Store) (req : CreateBookingRequest) (fromUser toUser : Nat)
    (now : Int) (newId : Nat) : Except ApiError (Booking × Store) :=
  if hasConflict store req.toolId req.startDate req.endDate then
    Except.error ApiError.bookingDatesConflict
  else
    Except.ok (freshBooking req fromUser toUser now newId,
      store ++ [freshBooking req fromUser toUser now newId])

/-- Modelled from the spec: BookingService.UpdateStatus is not among the
sources at hand. Per spec 4.2, on success it persists the new status of the
addressed record and refreshes its updated timestamp; every other record is
untouched. -/
def updateStatus : Store → Nat → BookingStatus → Int → Store
  | [], _, _, _ => []
  | b :: rest, id, st, now =>
      (if b.id = id then { b with bookingStatus := st, updatedAt := now } else b)
        :: updateStatus rest id st now

/-- HandleAcceptPetition, embedded from the source: authentication guard,
user lookup, identifier parse (none standing for a malformed ObjectID),
booking lookup, owner check, pending check, then the status update to
Accepted. -/
def HandleAcceptPetition (users : List User) (store : Store) (userId : String)
    (petitionId : Option Nat) (now : Int) : Except ApiError Unit × Store :=
  if userId = "" then (Except.error ApiError.unauthorized, store) else
  match getUserByEmail users userId with
  | none => (Except.error ApiError.userNotFound, store)
  | some user =>
    match petitionId with
    | none => (Except.error ApiError.invalidRequestBodyData, store)
    | some pid =>
      match bookingGet store pid with
      | none => (Except.error ApiError.bookingNotFound, store)
      | some booking =>
        if booking.toUserId ≠ user.id then (Except.error ApiError.onlyOwnerCanAccept, store)
        else if booking.bookingStatus ≠ BookingStatus.pending then
          (Except.error ApiError.canOnlyAcceptPending, store)
        else (Except.ok (), updateStatus store pid BookingStatus.accepted now)

/-- HandleDenyPetition, embedded from the source: same guards as accept,
owner check, pending check, then the status update to Rejected. -/
def HandleDenyPetition (users : List User) (store : Store) (userId : String)
    (petitionId : Option Nat) (now : Int) : Except ApiError Unit × Store :=
  if userId = "" then (Except.error ApiError.unauthorized, store) else
  match getUserByEmail users userId with
  | none => (Except.error ApiError.userNotFound, store)
  | some user =>
    match petitionId with
    | none => (Except.error ApiError.invalidRequestBodyData, store)
    | some pid =>
      match bookingGet store pid with
      | none => (Except.error ApiError.bookingNotFound, store)
      | some booking =>
        if booking.toUserId ≠ user.id then (Except.error ApiError.onlyOwnerCanDeny, store)
        else if booking.bookingStatus ≠ BookingStatus.pending then
          (Except.error ApiError.canOnlyDenyPending, store)
        else (Except.ok (), updateStatus store pid BookingStatus.rejected now)

/-- HandleCancelRequest, embedded from the source: guards, requester check
(FromUserID), pending check, then the status update to Cancelled. -/
def HandleCancelRequest (users : List User) (store : Store) (userId : String)
    (petitionId : Option Nat) (now : Int) : Except ApiError Unit × Store :=
  if userId = "" then (Except.error ApiError.unauthorized, store) else
  match getUserByEmail users userId with
  | none => (Except.error ApiError.userNotFound, store)
  | some user =>
    match petitionId with
    | none => (Except.error ApiError.invalidRequestBodyData, store)
    | some pid =>
      match bookingGet store pid with
      | none => (Except.error ApiError.bookingNotFound, store)
      | some booking =>
        if booking.fromUserId ≠ user.id then
          (Except.error ApiError.onlyRequesterCanCancel, store)
        else if booking.bookingStatus ≠ BookingStatus.pending then
          (Except.error ApiError.canOnlyCancelPending, store)
        else (Except.ok (), updateStatus store pid BookingStatus.cancelled now)

/-- HandleReturnBooking, embedded from the source: guards, owner check, and
then directly the status update to Returned; the source performs no check
of the current status on this path. -/
def HandleReturnBooking (users : List User) (store : Store) (userId : String)
    (bookingId : Option Nat) (now : Int) : Except ApiError Unit × Store :=
  if userId = "" then (Except.error ApiError.unauthorized, store) else
  match getUserByEmail users userId with
  | none => (Except.error ApiError.userNotFound, store)
  | some user =>
    match bookingId with
    | none => (Except.error ApiError.invalidRequestBodyData, store)
    | some bid =>
      match bookingGet store bid with
      | none => (Except.error ApiError.bookingNotFound, store)
      | some booking =>
        if booking.toUserId ≠ user.id then (Except.error ApiError.onlyOwnerCanReturn, store)
        else (Except.ok (), updateStatus store bid BookingStatus.returned now)

/-- HandleGetBooking, embedded from the source: identifier parse and booking
lookup only. The source never reads the UserID of the request on this path,
so the caller identity parameter is unused. -/
def HandleGetBooking (store : Store) (_userId : String) (bookingId : Option Nat) :
    Except ApiError Booking × Store :=
  match bookingId with
  | none => (Except.error ApiError.invalidRequestBodyData, store)
  | some bid =>
    match bookingGet store bid with
    | none => (Except.error ApiError.bookingNotFound, store)
    | some booking => (Except.ok booking, store)

/-- HandleRateBooking, embedded from the source: guards, booking lookup,
involvement check (caller is requester or owner), rating range check
(1 to 5), and then success with no write at all (the rating logic of the
source is a stub). -/
def HandleRateBooking (users : List User) (store : Store) (userId : String)
    (req : RateRequest) : Except ApiError Unit × Store :=
  if userId = "" then (Except.error ApiError.unauthorized, store) else
  match getUserByEmail users userId with
  | none => (Except.error ApiError.userNotFound, store)
  | some user =>
    match req.bookingId with
    | none => (Except.error ApiError.invalidRequestBodyData, store)
    | some bid =>
      match bookingGet store bid with
      | none => (Except.error ApiError.bookingNotFound, store)
      | some booking =>
        if booking.fromUserId ≠ user.id ∧ booking.toUserId ≠ user.id then
          (Except.error ApiError.userNotInvolved, store)
        else if req.rating < 1 ∨ req.rating > 5 then
          (Except.error ApiError.invalidRating, store)
        else (Except.ok (), store)

/-- The detector reports a conflict exactly when some stored reservation on
the same tool is Accepted and its range overlaps the candidate range in the
half-open sense. -/
theorem hasConflict_iff_mem (store : Store) (toolId : String) (s e : Int) :
    hasConflict store toolId s e = true ↔
      ∃ b ∈ store, b.toolId = toolId ∧ b.bookingStatus = BookingStatus.accepted ∧
        b.startDate < e ∧ b.endDate > s := by
  simp [hasConflict, isBlocking, List.any_eq_true, and_assoc]

/-- Looking up the updated record after a status update yields the old
record with the new status and the refreshed timestamp. -/
theorem bookingGet_updateStatus_self (store : Store) (pid : Nat) (bk : Booking)
    (st : BookingStatus) (now : Int) (h : bookingGet store pid = some bk) :
    bookingGet (updateStatus store pid st now) pid =
      some { bk with bookingStatus := st, updatedAt := now } := by
  induction store with
  | nil => simp [bookingGet] at h
  | cons a rest ih =>
    by_cases ha : a.id = pid
    · rw [bookingGet, if_pos ha] at h
      cases h
      simp [updateStatus, bookingGet, ha]
    · rw [bookingGet, if_neg ha] at h
      simp only [updateStatus, bookingGet, if_neg ha]
      exact ih h

instance {ε α : Type} [DecidableEq ε] [DecidableEq α] : DecidableEq (Except ε α) := fun x y =>
  match x, y with
  | Except.ok a, Except.ok b =>
    if h : a = b then isTrue (by rw [h]) else isFalse (fun hh => h (Except.ok.inj hh))
  | Except.ok _, Except.error _ => isFalse (fun hh => Except.noConfusion hh)
  | Except.error _, Except.ok _ => isFalse (fun hh => Except.noConfusion hh)
  | Except.error a, Except.error b =>
    if h : a = b then isTrue (by rw [h]) else isFalse (fun hh => h (Except.error.inj hh))

/-- A sample tool owner. -/
def demoOwner : User := { id := 1, email := "o" }

/-- A sample requester. -/
def demoRequester : User := { id := 2, email := "r" }

/-- A sample third party, neither owner nor requester of the demo bookings. -/
def demoStranger : User := { id := 3, email := "s" }

/-- The sample user table. -/
def demoUsers : List User := [demoOwner, demoRequester, demoStranger]

/-- A Pending reservation on tool 1 for the range [100, 200), requested by
demoRequester from demoOwner. -/
def demoPending1 : Booking :=
  { id := 10, toolId := "1", fromUserId := 2, toUserId := 1,
    startDate := 100, endDate := 200, contact := "c1", comments := "m1",
    bookingStatus := BookingStatus.pending, createdAt := 0, updatedAt := 0 }

/-- A second Pending reservation with the identical range on the same tool. -/
def demoPending2 : Booking := { demoPending1 with id := 11, contact := "c2", comments := "m2" }

/-- The same reservation already in status Accepted. -/
def demoAccepted : Booking := { demoPending1 with id := 12, bookingStatus := BookingStatus.accepted }

/-- The same reservation in status Cancelled. -/
def demoCancelled : Booking := { demoPending1 with id := 13, bookingStatus := BookingStatus.cancelled }

/-- Store with the two overlapping Pending reservations. -/
def demoStorePP : Store := [demoPending1, demoPending2]

/-- Store with a single Accepted reservation. -/
def demoStoreAcc : Store := [demoAccepted]

/-- Store with a single Cancelled reservation. -/
def demoStoreCan : Store := [demoCancelled]

/-- Store with a single Pending reservation. -/
def demoStoreP : Store := [demoPending1]

/-- Claim C3: date-range overlap is half-open. The Conflict Detector reports
a conflict exactly when some stored reservation on the tool is Accepted and
satisfies existing.start less than candidateEnd and existing.end greater
than candidateStart; a reservation ending exactly at the candidate start, or
starting exactly at the candidate end, never blocks. -/
theorem conflict_halfopen (store : Store) (toolId : String) (s e : Int) :
    (hasConflict store toolId s e = true ↔
      ∃ b ∈ store, b.toolId = toolId ∧ b.bookingStatus = BookingStatus.accepted ∧
        b.startDate < e ∧ b.endDate > s) ∧
    (∀ b : Booking, b.endDate = s ∨ b.startDate = e →
      isBlocking b toolId s e = false) := by
  refine ⟨hasConflict_iff_mem store toolId s e, ?_⟩
  intro b hb
  rcases hb with h | h <;> simp [isBlocking, h]

/-- Claim C2: bookingCreate fails with the dates-conflict error exactly when
some existing Accepted reservation on the same tool overlaps the requested
range (so Pending, Rejected, Cancelled and Returned reservations never
block), and when no such reservation exists it appends and returns a fresh
reservation whose status is Pending and whose two timestamps are now. -/
theorem create_conflict_spec (store : Store) (req : CreateBookingRequest)
    (fromUser toUser : Nat) (now : Int) (newId : Nat) :
    (bookingCreate store req fromUser toUser now newId =
        Except.error ApiError.bookingDatesConflict ↔
      ∃ b ∈ store, b.toolId = req.toolId ∧ b.bookingStatus = BookingStatus.accepted ∧
        b.startDate < req.endDate ∧ b.endDate > req.startDate) ∧
    (¬ (∃ b ∈ store, b.toolId = req.toolId ∧ b.bookingStatus = BookingStatus.accepted ∧
          b.startDate < req.endDate ∧ b.endDate > req.startDate) →
      bookingCreate store req fromUser toUser now newId =
        Except.ok (freshBooking req fromUser toUser now newId,
          store ++ [freshBooking req fromUser toUser now newId]) ∧
      (freshBooking req fromUser toUser now newId).bookingStatus = BookingStatus.pending ∧
      (freshBooking req fromUser toUser now newId).createdAt = now ∧
      (freshBooking req fromUser toUser now newId).updatedAt = now) := by
  constructor
  · by_cases hc : hasConflict store req.toolId req.startDate req.endDate = true
    · rw [bookingCreate, if_pos hc]
      exact iff_of_true rfl ((hasConflict_iff_mem store req.toolId req.startDate req.endDate).mp hc)
    · rw [bookingCreate, if_neg hc]
      exact iff_of_false (by simp)
        (fun hex => hc ((hasConflict_iff_mem store req.toolId req.startDate req.endDate).mpr hex))
  · intro hnc
    have hc : ¬ hasConflict store req.toolId req.startDate req.endDate = true :=
      fun h => hnc ((hasConflict_iff_mem store req.toolId req.startDate req.endDate).mp h)
    rw [bookingCreate, if_neg hc]
    exact ⟨rfl, rfl, rfl, rfl⟩

/-- A booking request on tool 1 for the range [150, 250), which overlaps
the demo range [100, 200) without being equal to it. -/
def demoReq : CreateBookingRequest :=
  { toolId := "1", startDate := 150, endDate := 250, contact := "c", comments := "m" }

/-- Witness for claim C2: against a store holding an Accepted reservation
for [100, 200), creating a booking for the overlapping range [150, 250)
fails with the dates-conflict error. -/
theorem create_conflict_spec_witness :
    bookingCreate demoStoreAcc demoReq 2 1 5 20 = Except.error ApiError.bookingDatesConflict :=
  (create_conflict_spec demoStoreAcc demoReq 2 1 5 20).1.mpr (by decide)

/-- Witness for claim C3: the Accepted demo reservation on [100, 200)
conflicts with the candidate range [150, 250). -/
theorem conflict_halfopen_witness : hasConflict demoStoreAcc "1" 150 250 = true :=
  (conflict_halfopen demoStoreAcc "1" 150 250).1.mpr (by decide)

/-- Claim C10: HandleGetBooking never inspects the caller identity; for a
fixed store and booking identifier, any two caller identities, including the
empty unauthenticated one, produce the same result. -/
theorem getBooking_ignores_caller (store : Store) (bookingId : Option Nat) (u1 u2 : String) :
    HandleGetBooking store u1 bookingId = HandleGetBooking store u2 bookingId := rfl

/-- Claim C4: on a reservation whose status is not Pending, accept, deny and
cancel (each invoked by its permitted actor) fail with the respective
can-only-on-pending error and leave the store unchanged. -/
theorem nonPending_transitions_stateError
    (users : List User) (store : Store) (ownerEmail reqEmail : String)
    (owner requester : User) (pid : Nat) (bk : Booking) (now : Int)
    (hoe : ownerEmail ≠ "") (hre : reqEmail ≠ "")
    (ho : getUserByEmail users ownerEmail = some owner)
    (hr : getUserByEmail users reqEmail = some requester)
    (hb : bookingGet store pid = some bk)
    (hown : bk.toUserId = owner.id)
    (hfrom : bk.fromUserId = requester.id)
    (hst : bk.bookingStatus ≠ BookingStatus.pending) :
    HandleAcceptPetition users store ownerEmail (some pid) now
        = (Except.error ApiError.canOnlyAcceptPending, store) ∧
    HandleDenyPetition users store ownerEmail (some pid) now
        = (Except.error ApiError.canOnlyDenyPending, store) ∧
    HandleCancelRequest users store reqEmail (some pid) now
        = (Except.error ApiError.canOnlyCancelPending, store) := by
  refine ⟨?_, ?_, ?_⟩ <;>
    simp [HandleAcceptPetition, HandleDenyPetition, HandleCancelRequest,
      hoe, hre, ho, hr, hb, hown, hfrom, hst]

/-- Witness for claim C4 at a concrete Accepted reservation. -/
theorem nonPending_transitions_stateError_witness :
    HandleAcceptPetition demoUsers demoStoreAcc "o" (some 12) 5
        = (Except.error ApiError.canOnlyAcceptPending, demoStoreAcc) ∧
    HandleDenyPetition demoUsers demoStoreAcc "o" (some 12) 5
        = (Except.error ApiError.canOnlyDenyPending, demoStoreAcc) ∧
    HandleCancelRequest demoUsers demoStoreAcc "r" (some 12) 5
        = (Except.error ApiError.canOnlyCancelPending, demoStoreAcc) :=
  nonPending_transitions_stateError demoUsers demoStoreAcc "o" "r" demoOwner demoRequester
    12 demoAccepted 5 (by decide) (by decide) (by decide) (by decide) (by decide)
    (by decide) (by decide) (by decide)

/-- Claim C5: whatever the current status of the reservation, a caller who
is not the owner cannot accept, deny or mark returned, and a caller who is
not the requester cannot cancel; each attempt fails with the respective
role error and leaves the store unchanged. -/
theorem role_mismatch_roleError
    (users : List User) (store : Store) (email : String) (u : User)
    (pid : Nat) (bk : Booking) (now : Int)
    (he : email ≠ "")
    (hu : getUserByEmail users email = some u)
    (hb : bookingGet store pid = some bk) :
    (bk.toUserId ≠ u.id →
      HandleAcceptPetition users store email (some pid) now
          = (Except.error ApiError.onlyOwnerCanAccept, store) ∧
      HandleDenyPetition users store email (some pid) now
          = (Except.error ApiError.onlyOwnerCanDeny, store) ∧
      HandleReturnBooking users store email (some pid) now
          = (Except.error ApiError.onlyOwnerCanReturn, store)) ∧
    (bk.fromUserId ≠ u.id →
      HandleCancelRequest users store email (some pid) now
          = (Except.error ApiError.onlyRequesterCanCancel, store)) := by
  constructor
  · intro hno
    refine ⟨?_, ?_, ?_⟩ <;>
      simp [HandleAcceptPetition, HandleDenyPetition, HandleReturnBooking, he, hu, hb, hno]
  · intro hnf
    simp [HandleCancelRequest, he, hu, hb, hnf]

/-- Witness for claim C5: a third party who is neither owner nor requester
is refused all four transitions on an Accepted reservation. -/
theorem role_mismatch_roleError_witness :
    (demoAccepted.toUserId ≠ demoStranger.id →
      HandleAcceptPetition demoUsers demoStoreAcc "s" (some 12) 5
          = (Except.error ApiError.onlyOwnerCanAccept, demoStoreAcc) ∧
      HandleDenyPetition demoUsers demoStoreAcc "s" (some 12) 5
          = (Except.error ApiError.onlyOwnerCanDeny, demoStoreAcc) ∧
      HandleReturnBooking demoUsers demoStoreAcc "s" (some 12) 5
          = (Except.error ApiError.onlyOwnerCanReturn, demoStoreAcc)) ∧
    (demoAccepted.fromUserId ≠ demoStranger.id →
      HandleCancelRequest demoUsers demoStoreAcc "s" (some 12) 5
          = (Except.error ApiError.onlyRequesterCanCancel, demoStoreAcc)) :=
  role_mismatch_roleError demoUsers demoStoreAcc "s" demoStranger 12 demoAccepted 5
    (by decide) (by decide) (by decide)

/-- Claim C6: the return transition applies no current-state check: for a
reservation in any status, the owner marking it returned succeeds and the
stored reservation ends in status Returned with a refreshed timestamp. -/
theorem return_any_state
    (users : List User) (store : Store) (email : String) (u : User)
    (pid : Nat) (bk : Booking) (now : Int)
    (he : email ≠ "")
    (hu : getUserByEmail users email = some u)
    (hb : bookingGet store pid = some bk)
    (hown : bk.toUserId = u.id) :
    HandleReturnBooking users store email (some pid) now
        = (Except.ok (), updateStatus store pid BookingStatus.returned now) ∧
    bookingGet (updateStatus store pid BookingStatus.returned now) pid
        = some { bk with bookingStatus := BookingStatus.returned, updatedAt := now } := by
  constructor
  · simp [HandleReturnBooking, he, hu, hb, hown]
  · exact bookingGet_updateStatus_self store pid bk BookingStatus.returned now hb

/-- Witness for claim C6: returning a Cancelled reservation succeeds. -/
theorem return_any_state_witness :
    HandleReturnBooking demoUsers demoStoreCan "o" (some 13) 5
        = (Except.ok (), updateStatus demoStoreCan 13 BookingStatus.returned 5) ∧
    bookingGet (updateStatus demoStoreCan 13 BookingStatus.returned 5) 13
        = some { demoCancelled with bookingStatus := BookingStatus.returned, updatedAt := 5 } :=
  return_any_state demoUsers demoStoreCan "o" demoOwner 13 demoCancelled 5
    (by decide) (by decide) (by decide) (by decide)

/-- Claim C1, evaluated at the failing input: two Pending reservations on
tool 1 share the range [100, 200). The owner accepts the first, after which
the range of the second conflicts with an Accepted reservation, yet
accepting the second also succeeds instead of failing with the
dates-conflict error, and the store ends with both reservations Accepted
on overlapping ranges. -/
theorem accept_skips_conflict_detector :
    (HandleAcceptPetition demoUsers demoStorePP "o" (some 10) 5).1 = Except.ok () ∧
    hasConflict (HandleAcceptPetition demoUsers demoStorePP "o" (some 10) 5).2 "1" 100 200
      = true ∧
    (HandleAcceptPetition demoUsers
        (HandleAcceptPetition demoUsers demoStorePP "o" (some 10) 5).2 "o" (some 11) 6).1
      = Except.ok () ∧
    (bookingGet (HandleAcceptPetition demoUsers
        (HandleAcceptPetition demoUsers demoStorePP "o" (some 10) 5).2 "o" (some 11) 6).2
        10).map Booking.bookingStatus = some BookingStatus.accepted ∧
    (bookingGet (HandleAcceptPetition demoUsers
        (HandleAcceptPetition demoUsers demoStorePP "o" (some 10) 5).2 "o" (some 11) 6).2
        11).map Booking.bookingStatus = some BookingStatus.accepted := by
  decide

/-- Claim C7 counterexample: the return transition repeated by the same
actor with the same target succeeds again instead of failing with a state
error, because the return path has no current-state check. -/
theorem repeat_return_not_stateError :
    (HandleReturnBooking demoUsers demoStoreP "o" (some 10) 4).1 = Except.ok () ∧
    (HandleReturnBooking demoUsers
        (HandleReturnBooking demoUsers demoStoreP "o" (some 10) 4).2 "o" (some 10) 5).1
      = Except.ok () := by
  decide

/-- Claim C7 amended: repeating a successful accept, deny or cancel with
the same actor and the same target fails with the respective
can-only-on-pending state error, while repeating a successful return
succeeds again. -/
theorem transition_repeat
    (users : List User) (store : Store) (ownerEmail reqEmail : String)
    (owner requester : User) (pid : Nat) (bk : Booking) (now now2 : Int)
    (hoe : ownerEmail ≠ "") (hre : reqEmail ≠ "")
    (ho : getUserByEmail users ownerEmail = some owner)
    (hr : getUserByEmail users reqEmail = some requester)
    (hb : bookingGet store pid = some bk)
    (hown : bk.toUserId = owner.id)
    (hfrom : bk.fromUserId = requester.id)
    (hst : bk.bookingStatus = BookingStatus.pending) :
    (HandleAcceptPetition users store ownerEmail (some pid) now).1 = Except.ok () ∧
    HandleAcceptPetition users (HandleAcceptPetition users store ownerEmail (some pid) now).2
        ownerEmail (some pid) now2
      = (Except.error ApiError.canOnlyAcceptPending,
         (HandleAcceptPetition users store ownerEmail (some pid) now).2) ∧
    (HandleDenyPetition users store ownerEmail (some pid) now).1 = Except.ok () ∧
    HandleDenyPetition users (HandleDenyPetition users store ownerEmail (some pid) now).2
        ownerEmail (some pid) now2
      = (Except.error ApiError.canOnlyDenyPending,
         (HandleDenyPetition users store ownerEmail (some pid) now).2) ∧
    (HandleCancelRequest users store reqEmail (some pid) now).1 = Except.ok () ∧
    HandleCancelRequest users (HandleCancelRequest users store reqEmail (some pid) now).2
        reqEmail (some pid) now2
      = (Except.error ApiError.canOnlyCancelPending,
         (HandleCancelRequest users store reqEmail (some pid) now).2) ∧
    (HandleReturnBooking users store ownerEmail (some pid) now).1 = Except.ok () ∧
    (HandleReturnBooking users (HandleReturnBooking users store ownerEmail (some pid) now).2
        ownerEmail (some pid) now2).1 = Except.ok () := by
  have hacc1 : HandleAcceptPetition users store ownerEmail (some pid) now
      = (Except.ok (), updateStatus store pid BookingStatus.accepted now) := by
    simp [HandleAcceptPetition, hoe, ho, hb, hown, hst]
  have hgeta := bookingGet_updateStatus_self store pid bk BookingStatus.accepted now hb
  have hacc2 : HandleAcceptPetition users (updateStatus store pid BookingStatus.accepted now)
      ownerEmail (some pid) now2
      = (Except.error ApiError.canOnlyAcceptPending,
         updateStatus store pid BookingStatus.accepted now) := by
    simp [HandleAcceptPetition, hoe, ho, hgeta, hown]
  have hden1 : HandleDenyPetition users store ownerEmail (some pid) now
      = (Except.ok (), updateStatus store pid BookingStatus.rejected now) := by
    simp [HandleDenyPetition, hoe, ho, hb, hown, hst]
  have hgetd := bookingGet_updateStatus_self store pid bk BookingStatus.rejected now hb
  have hden2 : HandleDenyPetition users (updateStatus store pid BookingStatus.rejected now)
      ownerEmail (some pid) now2
      = (Except.error ApiError.canOnlyDenyPending,
         updateStatus store pid BookingStatus.rejected now) := by
    simp [HandleDenyPetition, hoe, ho, hgetd, hown]
  have hcan1 : HandleCancelRequest users store reqEmail (some pid) now
      = (Except.ok (), updateStatus store pid BookingStatus.cancelled now) := by
    simp [HandleCancelRequest, hre, hr, hb, hfrom, hst]
  have hgetc := bookingGet_updateStatus_self store pid bk BookingStatus.cancelled now hb
  have hcan2 : HandleCancelRequest users (updateStatus store pid BookingStatus.cancelled now)
      reqEmail (some pid) now2
      = (Except.error ApiError.canOnlyCancelPending,
         updateStatus store pid BookingStatus.cancelled now) := by
    simp [HandleCancelRequest, hre, hr, hgetc, hfrom]
  have hret1 : HandleReturnBooking users store ownerEmail (some pid) now
      = (Except.ok (), updateStatus store pid BookingStatus.returned now) := by
    simp [HandleReturnBooking, hoe, ho, hb, hown]
  have hgetr := bookingGet_updateStatus_self store pid bk BookingStatus.returned now hb
  have hret2 : (HandleReturnBooking users (updateStatus store pid BookingStatus.returned now)
      ownerEmail (some pid) now2).1 = Except.ok () := by
    simp [HandleReturnBooking, hoe, ho, hgetr, hown]
  refine ⟨by rw [hacc1], by rw [hacc1]; exact hacc2,
    by rw [hden1], by rw [hden1]; exact hden2,
    by rw [hcan1], by rw [hcan1]; exact hcan2,
    by rw [hret1], by rw [hret1]; exact hret2⟩

/-- Witness for the amended claim C7: concretely, after a successful accept
of the Pending demo reservation, accepting it again fails with the
can-only-accept-pending error and changes nothing. -/
theorem transition_repeat_witness :
    HandleAcceptPetition demoUsers
        (HandleAcceptPetition demoUsers demoStoreP "o" (some 10) 4).2 "o" (some 10) 5
      = (Except.error ApiError.canOnlyAcceptPending,
         (HandleAcceptPetition demoUsers demoStoreP "o" (some 10) 4).2) :=
  (transition_repeat demoUsers demoStoreP "o" "r" demoOwner demoRequester 10 demoPending1 4 5
    (by decide) (by decide) (by decide) (by decide) (by decide) (by decide) (by decide)
    (by decide)).2.1

/-- Every branch of HandleRateBooking returns the store it was given. -/
theorem rateBooking_snd (users : List User) (store : Store) (email : String)
    (req : RateRequest) : (HandleRateBooking users store email req).2 = store := by
  unfold HandleRateBooking
  repeat' split
  all_goals rfl

/-- Claim C8: rating a booking is a validated no-op. A caller who is
neither requester nor owner gets the user-not-involved error; an involved
caller with a rating outside 1 to 5 gets the invalid-rating error; an
involved caller with a rating in range succeeds; and in every case the
stored reservations are untouched. -/
theorem rate_validated_noop
    (users : List User) (store : Store) (email : String) (u : User)
    (req : RateRequest) (bid : Nat) (bk : Booking)
    (he : email ≠ "")
    (hu : getUserByEmail users email = some u)
    (hbid : req.bookingId = some bid)
    (hb : bookingGet store bid = some bk) :
    (bk.fromUserId ≠ u.id ∧ bk.toUserId ≠ u.id →
      HandleRateBooking users store email req
        = (Except.error ApiError.userNotInvolved, store)) ∧
    ((bk.fromUserId = u.id ∨ bk.toUserId = u.id) → (req.rating < 1 ∨ req.rating > 5) →
      HandleRateBooking users store email req
        = (Except.error ApiError.invalidRating, store)) ∧
    ((bk.fromUserId = u.id ∨ bk.toUserId = u.id) → 1 ≤ req.rating → req.rating ≤ 5 →
      HandleRateBooking users store email req = (Except.ok (), store)) ∧
    (HandleRateBooking users store email req).2 = store := by
  refine ⟨?_, ?_, ?_, rateBooking_snd users store email req⟩
  · rintro ⟨h1, h2⟩
    simp [HandleRateBooking, he, hu, hbid, hb, h1, h2]
  · rintro (h1 | h1) (hbad | hbad) <;>
      simp [HandleRateBooking, he, hu, hbid, hb, h1, hbad]
  · rintro (h1 | h1) hlo hhi <;>
    · have hx : ¬ req.rating < 1 := not_lt.mpr hlo
      have hy : ¬ req.rating > 5 := not_lt.mpr hhi
      simp [HandleRateBooking, he, hu, hbid, hb, h1, hx, hy]

/-- Witness for claim C8: the requester rates the demo reservation with 3
and the call succeeds without touching the store. -/
theorem rate_validated_noop_witness :
    (demoPending1.fromUserId ≠ demoRequester.id ∧ demoPending1.toUserId ≠ demoRequester.id →
      HandleRateBooking demoUsers demoStoreP "r" { rating := 3, bookingId := some 10 }
        = (Except.error ApiError.userNotInvolved, demoStoreP)) ∧
    ((demoPending1.fromUserId = demoRequester.id ∨ demoPending1.toUserId = demoRequester.id) →
      ((3 : Int) < 1 ∨ (3 : Int) > 5) →
      HandleRateBooking demoUsers demoStoreP "r" { rating := 3, bookingId := some 10 }
        = (Except.error ApiError.invalidRating, demoStoreP)) ∧
    ((demoPending1.fromUserId = demoRequester.id ∨ demoPending1.toUserId = demoRequester.id) →
      (1 : Int) ≤ 3 → (3 : Int) ≤ 5 →
      HandleRateBooking demoUsers demoStoreP "r" { rating := 3, bookingId := some 10 }
        = (Except.ok (), demoStoreP)) ∧
    (HandleRateBooking demoUsers demoStoreP "r" { rating := 3, bookingId := some 10 }).2
      = demoStoreP :=
  rate_validated_noop demoUsers demoStoreP "r" demoRequester
    { rating := 3, bookingId := some 10 } 10 demoPending1
    (by decide) (by decide) (by decide) (by decide)

/-- On every path, HandleAcceptPetition either succeeds or leaves the store
as it was. -/
theorem accept_ok_or_frame (users : List User) (store : Store) (email : String)
    (pid : Option Nat) (now : Int) :
    (HandleAcceptPetition users store email pid now).1 = Except.ok () ∨
    (HandleAcceptPetition users store email pid now).2 = store := by
  unfold HandleAcceptPetition
  repeat' split
  all_goals simp

/-- On every path, HandleDenyPetition either succeeds or leaves the store
as it was. -/
theorem deny_ok_or_frame (users : List User) (store : Store) (email : String)
    (pid : Option Nat) (now : Int) :
    (HandleDenyPetition users store email pid now).1 = Except.ok () ∨
    (HandleDenyPetition users store email pid now).2 = store := by
  unfold HandleDenyPetition
  repeat' split
  all_goals simp

/-- On every path, HandleCancelRequest either succeeds or leaves the store
as it was. -/
theorem cancel_ok_or_frame (users : List User) (store : Store) (email : String)
    (pid : Option Nat) (now : Int) :
    (HandleCancelRequest users store email pid now).1 = Except.ok () ∨
    (HandleCancelRequest users store email pid now).2 = store := by
  unfold HandleCancelRequest
  repeat' split
  all_goals simp

/-- On every path, HandleReturnBooking either succeeds or leaves the store
as it was. -/
theorem return_ok_or_frame (users : List User) (store : Store) (email : String)
    (pid : Option Nat) (now : Int) :
    (HandleReturnBooking users store email pid now).1 = Except.ok () ∨
    (HandleReturnBooking users store email pid now).2 = store := by
  unfold HandleReturnBooking
  repeat' split
  all_goals simp

/-- Claim C9: the four transition handlers are atomic on error: whenever
one of them returns an error of any kind, the status update was never
reached and the store is returned unchanged. -/
theorem transitions_atomic_on_error
    (users : List User) (store : Store) (email : String) (pid : Option Nat) (now : Int) :
    (∀ e, (HandleAcceptPetition users store email pid now).1 = Except.error e →
      (HandleAcceptPetition users store email pid now).2 = store) ∧
    (∀ e, (HandleDenyPetition users store email pid now).1 = Except.error e →
      (HandleDenyPetition users store email pid now).2 = store) ∧
    (∀ e, (HandleCancelRequest users store email pid now).1 = Except.error e →
      (HandleCancelRequest users store email pid now).2 = store) ∧
    (∀ e, (HandleReturnBooking users store email pid now).1 = Except.error e →
      (HandleReturnBooking users store email pid now).2 = store) := by
  refine ⟨?_, ?_, ?_, ?_⟩ <;> intro e h
  · rcases accept_ok_or_frame users store email pid now with h1 | h1
    · rw [h] at h1
      exact Except.noConfusion h1
    · exact h1
  · rcases deny_ok_or_frame users store email pid now with h1 | h1
    · rw [h] at h1
      exact Except.noConfusion h1
    · exact h1
  · rcases cancel_ok_or_frame users store email pid now with h1 | h1
    · rw [h] at h1
      exact Except.noConfusion h1
    · exact h1
  · rcases return_ok_or_frame users store email pid now with h1 | h1
    · rw [h] at h1
      exact Except.noConfusion h1
    · exact h1

/-- Witness for claim C9: a third party triggers the role error on all four
transitions and the store comes back unchanged each time. -/
theorem transitions_atomic_on_error_witness :
    (HandleAcceptPetition demoUsers demoStoreP "s" (some 10) 4).2 = demoStoreP ∧
    (HandleDenyPetition demoUsers demoStoreP "s" (some 10) 4).2 = demoStoreP ∧
    (HandleCancelRequest demoUsers demoStoreP "s" (some 10) 4).2 = demoStoreP ∧
    (HandleReturnBooking demoUsers demoStoreP "s" (some 10) 4).2 = demoStoreP :=
  ⟨(transitions_atomic_on_error demoUsers demoStoreP "s" (some 10) 4).1
      ApiError.onlyOwnerCanAccept (by decide),
   (transitions_atomic_on_error demoUsers demoStoreP "s" (some 10) 4).2.1
      ApiError.onlyOwnerCanDeny (by decide),
   (transitions_atomic_on_error demoUsers demoStoreP "s" (some 10) 4).2.2.1
      ApiError.onlyRequesterCanCancel (by decide),
   (transitions_atomic_on_error demoUsers demoStoreP "s" (some 10) 4).2.2.2
      ApiError.onlyOwnerCanReturn (by decide)⟩

end Emprius
